import Mathlib

/-!
Verification development for the RAG-Analytics query-orchestration pipeline
(`fastapi-app/app/services/*.py`).  Python strings are modelled as `List Char`
(one entry per code point); Python text primitives (`str.strip`, `str.lower`,
`str.upper`, `in`, `str.split`, `str.count`, slicing) are embedded below as
executable Lean functions.  Stateful collaborators (hosted-model backends, the
SQL backend, the vector search capability, the durable history store) are
modelled as explicit oracle parameters; side effects that matter to the
specification (in-memory conversation appends, durable history writes) are
recorded in an explicit event trace.
-/

set_option maxRecDepth 16384

/-- Python `str.isspace` / the whitespace class used by `str.strip()` and
`\s`, restricted to the characters this repository can encounter. -/
def isPySpace (c : Char) : Bool := c.isWhitespace

/-- Python `str.lower()` (the repository only lowercases ASCII text). -/
def pyLower (l : List Char) : List Char := l.map Char.toLower

/-- Python `str.upper()` (the repository only uppercases ASCII text). -/
def pyUpper (l : List Char) : List Char := l.map Char.toUpper

/-- Drop trailing characters satisfying `p` (helper for `str.strip`). -/
def dropTrailWhile (p : Char → Bool) (l : List Char) : List Char :=
  ((l.reverse).dropWhile p).reverse

/-- Python `str.strip()`: remove leading and trailing whitespace. -/
def pyStrip (l : List Char) : List Char :=
  dropTrailWhile isPySpace (l.dropWhile isPySpace)

/-- Python `str.rstrip(chars)`: remove trailing characters drawn from `cs`. -/
def pyRstrip (cs : List Char) (l : List Char) : List Char :=
  dropTrailWhile (fun c => c ∈ cs) l

/-- Python `needle in haystack` on strings: `hasSubstr kw l` holds when `kw`
occurs contiguously inside `l` (the empty needle occurs everywhere). -/
def hasSubstr (kw : List Char) : List Char → Bool
  | [] => kw.isEmpty
  | c :: t => kw.isPrefixOf (c :: t) || hasSubstr kw t

/-- Auxiliary accumulator for `pyWords`. -/
def pyWordsAux : List Char → List Char → List (List Char)
  | [], acc => if acc.isEmpty then [] else [acc.reverse]
  | c :: t, acc =>
    if isPySpace c then
      if acc.isEmpty then pyWordsAux t [] else acc.reverse :: pyWordsAux t []
    else
      pyWordsAux t (c :: acc)

/-- Python `str.split()` with no argument: split on whitespace runs, dropping
empty pieces. -/
def pyWords (l : List Char) : List (List Char) := pyWordsAux l []

/-! ## `DatabaseService.execute_query` (`database_service.py:49-73`) -/

/-- Result rows: each row is an ordered association of column name to a value
rendered as text (the concrete cell type is irrelevant to the claims). -/
abbrev Row := List (String × String)

/-- The forbidden-keyword list, in source order (`database_service.py:60`). -/
def dangerous_keywords : List String :=
  ["INSERT", "UPDATE", "DELETE", "DROP", "ALTER", "CREATE", "TRUNCATE",
   "EXEC", "EXECUTE"]

/-- The validation prefix of `DatabaseService.execute_query`: `sql_upper =
sql.strip().upper()`; reject unless it starts with `SELECT`; then reject on
the first dangerous keyword occurring as a substring.  Returns the raised
`ValueError` message, or `none` when validation passes. -/
def validateQuery (sql : List Char) : Option String :=
  let sql_upper := pyUpper (pyStrip sql)
  if ¬ ("SELECT".toList.isPrefixOf sql_upper) then
    some "Only SELECT queries are allowed for security reasons"
  else
    match dangerous_keywords.find? (fun kw => hasSubstr kw.toList sql_upper) with
    | some kw => some ("Query contains forbidden keyword: " ++ kw)
    | none => none

/-- Errors surfaced by `execute_query`: the validation `ValueError`s, or an
exception propagated from the backend session. -/
inductive DbError
  | validation (msg : String)
  | backend (msg : String)
deriving DecidableEq

/-- `DatabaseService.execute_query` with the SQLAlchemy session abstracted as
a `backend` oracle.  The second component records whether an execution attempt
was made against the backend. -/
def execute_query_instr (backend : List Char → Except String (List Row))
    (sql : List Char) : Except DbError (List Row) × Bool :=
  match validateQuery sql with
  | some msg => (Except.error (DbError.validation msg), false)
  | none =>
    match backend sql with
    | Except.error e => (Except.error (DbError.backend e), true)
    | Except.ok rows => (Except.ok rows, true)

/-! ## `LLMService._call_llm` retry loop (`llm_service.py:121-153`) -/

/-- Outcome of one provider call attempt: a returned text, an
`httpx.HTTPStatusError` with status 429 (rate limit), or any other raised
exception (non-429 HTTP errors, unknown provider, etc.). -/
inductive LLMOutcome
  | success (text : String)
  | rateLimited (err : Nat)
  | failure (err : Nat)
deriving DecidableEq

/-- Error finally raised by `_call_llm`. -/
inductive LLMErr
  | rate (err : Nat)
  | other (err : Nat)
deriving DecidableEq

/-- Observable trace of one `_call_llm` run: the returned/raised result, the
sequence of `time.sleep` durations (in seconds), and how many provider call
attempts were made. -/
structure CallTrace where
  result : Except LLMErr String
  waits : List Nat
  attempts : Nat

/-- `self.max_retries` (`llm_service.py:29`). -/
def llm_max_retries : Nat := 3

/-- `self.retry_delay` in seconds (`llm_service.py:30`). -/
def llm_retry_delay : Nat := 5

/-- The `for attempt in range(self.max_retries)` loop of `_call_llm`:
`attempt` is the 0-based index, `remaining` the iterations left, `last` the
`last_error` variable, `waits`/`count` the recorded sleeps and attempts.  On a
429 the loop sleeps `retry_delay * (attempt + 1)` and continues; any other
exception propagates at once; success returns; after the loop the last error
is raised (`last` is always set there; the default is unreachable). -/
def call_llm_go (outcomes : Nat → LLMOutcome) :
    Nat → Nat → Option LLMErr → List Nat → Nat → CallTrace
  | _, 0, last, waits, count =>
    { result := Except.error (match last with
        | some e => e
        | none => LLMErr.other 0),
      waits := waits, attempts := count }
  | attempt, remaining + 1, last, waits, count =>
    match outcomes attempt with
    | LLMOutcome.success t =>
      { result := Except.ok t, waits := waits, attempts := count + 1 }
    | LLMOutcome.rateLimited e =>
      call_llm_go outcomes (attempt + 1) remaining (some (LLMErr.rate e))
        (waits ++ [llm_retry_delay * (attempt + 1)]) (count + 1)
    | LLMOutcome.failure e =>
      { result := Except.error (LLMErr.other e), waits := waits,
        attempts := count + 1 }

/-- `LLMService._call_llm` with the provider dispatch abstracted into
`outcomes` (the result of the `attempt`-th provider call). -/
def call_llm (outcomes : Nat → LLMOutcome) : CallTrace :=
  call_llm_go outcomes 0 llm_max_retries none [] 0

/-! ## `LLMService.generate_sql` response parsing (`llm_service.py:185-212`) -/

/-- The parsing loop of `generate_sql`: scan lines, updating the refined
question on every line starting with `REFINED:`; on the first line starting
with `SQL:` take its remainder plus all following lines (joined by newlines)
as the query and stop.  `refined` starts as the original question; `sql`
starts as the empty string. -/
def gen_sql_loop (refined : List Char) : List (List Char) → List Char × List Char
  | [] => (refined, [])
  | l :: rest =>
    if "REFINED:".toList.isPrefixOf l then
      gen_sql_loop (pyStrip (l.drop 8)) rest
    else if "SQL:".toList.isPrefixOf l then
      (refined, pyStrip (l.drop 4) ++ '\n' :: List.intercalate ['\n'] rest)
    else
      gen_sql_loop refined rest

/-- The SQL clean-up of `generate_sql`: strip, then peel markdown code-fence
markers, then strip again (`llm_service.py:202-210`). -/
def clean_sql (s : List Char) : List Char :=
  let s1 := pyStrip s
  let s2 := if "```sql".toList.isPrefixOf s1 then s1.drop 6 else s1
  let s3 := if "```".toList.isPrefixOf s2 then s2.drop 3 else s2
  let s4 := if "```".toList.isSuffixOf s3 then s3.take (s3.length - 3) else s3
  pyStrip s4

/-- The pure part of `LLMService.generate_sql`: parse the provider response
into `(refined_question, sql)`.  The provider call itself is an oracle. -/
def generate_sql_parse (question response : List Char) : List Char × List Char :=
  let p := gen_sql_loop question ((pyStrip response).splitOn '\n')
  (p.1, clean_sql p.2)

/-! ## Regex helpers for `rag_pipeline.py`

The repository matches lines against three anchored patterns:
`^[\•\-\*\d\.]\s*.+` (multi-question detection), `^[\•\-\*]\s*(.+)` and
`^\d+[\.\)]\s*(.+)` (bullet extraction), and searches for
`(?:i am|i'm|my name is|call me)\s+(.+)`.  The helpers below implement the
backtracking semantics of `\s*`/`\s+` followed by a greedy `(.+)` (which
matches one or more characters other than a newline). -/

/-- Can `\s*.+` match a prefix of `l`?  Either `.+` starts at the first
character (any character except a newline), or that character is consumed by
`\s*` and the rest must match. -/
def wsStarDotPlus : List Char → Bool
  | [] => false
  | c :: rest => (c ≠ '\n' : Bool) || (isPySpace c && wsStarDotPlus rest)

/-- Capture group of `\s*(.+)` matched against `l` (greedy `\s*`, with
backtracking when nothing is left for `.+`; the group extends to the end of
the line but never across a newline).  `none` when there is no match. -/
def captureWsRest : List Char → Option (List Char)
  | [] => none
  | c :: rest =>
    if isPySpace c then
      match captureWsRest rest with
      | some g => some g
      | none =>
        if c = '\n' then none
        else some (c :: rest.takeWhile (fun x => x ≠ '\n'))
    else
      some (c :: rest.takeWhile (fun x => x ≠ '\n'))

/-- Character class `[\•\-\*\d\.]` of `_is_multi_question`. -/
def multiBulletClass (c : Char) : Bool :=
  c = '•' || c = '-' || c = '*' || c.isDigit || c = '.'

/-- `re.match(r'^[\•\-\*\d\.]\s*.+', line)` succeeds. -/
def multiBulletMatch (line : List Char) : Bool :=
  match line with
  | [] => false
  | c :: rest => multiBulletClass c && wsStarDotPlus rest

/-- Capture of `re.match(r'^[\•\-\*]\s*(.+)', line)`. -/
def bulletCapture (line : List Char) : Option (List Char) :=
  match line with
  | [] => none
  | c :: rest =>
    if c = '•' || c = '-' || c = '*' then captureWsRest rest else none

/-- Capture of `re.match(r'^\d+[\.\)]\s*(.+)', line)`: one or more digits,
then a literal `.` or `)`, then `\s*(.+)`. -/
def numberedCapture (line : List Char) : Option (List Char) :=
  let ds := line.takeWhile Char.isDigit
  if ds.isEmpty then none
  else
    match line.drop ds.length with
    | [] => none
    | c :: rest => if c = '.' || c = ')' then captureWsRest rest else none

/-! ## `RAGPipeline` classification and decomposition (`rag_pipeline.py:25-130,192-282`) -/

/-- `RAGPipeline.DATA_KEYWORDS` (`rag_pipeline.py:27-36`). -/
def DATA_KEYWORDS : List String :=
  ["sales", "revenue", "profit", "order", "customer", "product", "region",
   "total", "sum", "count", "average", "top", "bottom", "best", "worst",
   "how many", "how much", "what is the", "show me", "list", "give me",
   "compare", "trend", "growth", "decline", "increase", "decrease",
   "monthly", "daily", "weekly", "yearly", "today", "yesterday", "this month",
   "last month", "this year", "last year", "quarter", "performance",
   "amount", "quantity", "price", "cost", "margin", "discount",
   "category", "status", "pending", "completed", "cancelled"]

/-- `RAGPipeline.CONVERSATIONAL_PATTERNS` (`rag_pipeline.py:39-45`). -/
def CONVERSATIONAL_PATTERNS : List String :=
  ["who are you", "what are you", "what can you do", "how do you work",
   "hello", "hi", "hey", "good morning", "good afternoon", "good evening",
   "thank you", "thanks", "bye", "goodbye", "help me", "what is your name",
   "introduce yourself", "tell me about yourself", "your name",
   "i am", "my name is", "call me", "i\x27m"]

/-- `RAGPipeline.OUT_OF_SCOPE_PATTERNS` (`rag_pipeline.py:48-55`). -/
def OUT_OF_SCOPE_PATTERNS : List String :=
  ["do you know about", "tell me about", "what is", "who is", "where is",
   "explain", "define", "meaning of", "history of", "how does", "why does",
   "google", "facebook", "microsoft", "amazon", "apple", "twitter", "openai",
   "weather", "news", "politics", "sports", "movie", "music", "recipe",
   "programming", "python", "javascript", "code", "write a", "create a",
   "translate", "capital of", "population of", "president", "prime minister"]

/-- `RAGPipeline._is_multi_question` (`rag_pipeline.py:72-93`): count the
stripped lines of the stripped question matching `^[\•\-\*\d\.]\s*.+`; two or
more such lines, or two or more `?` in the (unstripped) question, mean a
multi-question input. -/
def is_multi_question (question : List Char) : Bool :=
  let lines := (pyStrip question).splitOn '\n'
  let bullet_count := lines.countP (fun l => multiBulletMatch (pyStrip l))
  if 2 ≤ bullet_count then true
  else if 2 ≤ question.count '?' then true
  else false

/-- The bullet/numbered items collected by the first phase of
`RAGPipeline._extract_questions` (`rag_pipeline.py:102-115`). -/
def bullet_questions (text : List Char) : List (List Char) :=
  ((pyStrip text).splitOn '\n').filterMap (fun l =>
    let ls := pyStrip l
    match bulletCapture ls with
    | some g => some (pyStrip g)
    | none =>
      match numberedCapture ls with
      | some g => some (pyStrip g)
      | none => none)

/-- The question-mark fragments kept by the second phase of
`RAGPipeline._extract_questions` (`rag_pipeline.py:121-127`): split on `?`,
strip each part, keep non-empty parts longer than 3 characters with `?`
re-appended. -/
def qmark_questions (text : List Char) : List (List Char) :=
  (text.splitOn '?').filterMap (fun part =>
    let p := pyStrip part
    if p ≠ [] ∧ 3 < p.length then some (p ++ ['?']) else none)

/-- `RAGPipeline._extract_questions` (`rag_pipeline.py:95-130`). -/
def extract_questions (text : List Char) : List (List Char) :=
  let bq := bullet_questions text
  if 2 ≤ bq.length then bq
  else if 2 ≤ text.count '?' then qmark_questions text
  else [pyStrip text]

/-- `RAGPipeline._is_conversational_query_single` (`rag_pipeline.py:192-218`):
data keywords first, then out-of-scope patterns, then conversational
patterns, then the short-question fallback (≤ 4 whitespace-separated words).
All checks are substring tests against the lowercased, stripped question. -/
def is_conversational_query_single (question : List Char) : Bool :=
  if DATA_KEYWORDS.any
      (fun k => hasSubstr k.toList (pyStrip (pyLower question))) then false
  else if OUT_OF_SCOPE_PATTERNS.any
      (fun p => hasSubstr p.toList (pyStrip (pyLower question))) then true
  else if CONVERSATIONAL_PATTERNS.any
      (fun p => hasSubstr p.toList (pyStrip (pyLower question))) then true
  else if (pyWords (pyStrip (pyLower question))).length ≤ 4 then true
  else false

/-- `RAGPipeline._is_conversational_query` (`rag_pipeline.py:251-282`): like
the single-question variant, but multi-question inputs are reported as
conversational before the data-keyword check. -/
def is_conversational_query (question : List Char) : Bool :=
  if is_multi_question question then true
  else if DATA_KEYWORDS.any
      (fun k => hasSubstr k.toList (pyStrip (pyLower question))) then false
  else if OUT_OF_SCOPE_PATTERNS.any
      (fun p => hasSubstr p.toList (pyStrip (pyLower question))) then true
  else if CONVERSATIONAL_PATTERNS.any
      (fun p => hasSubstr p.toList (pyStrip (pyLower question))) then true
  else if (pyWords (pyStrip (pyLower question))).length ≤ 4 then true
  else false

/-- The three routing outcomes of `RAGPipeline.process_query`
(`rag_pipeline.py:401,450`): the multi-question branch is taken first, then
the conversational branch, otherwise the data-query pipeline runs. -/
inductive QueryClass
  | multiQuestion
  | conversational
  | dataQuery
deriving DecidableEq

/-- Branch selection of `RAGPipeline.process_query` as a pure classifier. -/
def classify (question : List Char) : QueryClass :=
  if is_multi_question question then QueryClass.multiQuestion
  else if is_conversational_query question then QueryClass.conversational
  else QueryClass.dataQuery

/-! ## `VectorStoreService.search` / `get_all_context` (`vector_store.py:144-245`) -/

/-- One merged search result (`vector_store.py:191-196`): document content,
source collection name, metadata, and an optional distance score. -/
structure RetrievedItem where
  content : String
  collection : String
  metadata : List (String × String)
  distance : Option Int
deriving DecidableEq

/-- The search capability consumed by `VectorStoreService.search`: for a
collection name and a query it returns the ranked documents
(content, metadata, distance) that the Chroma query yields.  Distances are
modelled as integers (only their order matters). -/
abbrev SearchEnv := String → String → List (String × List (String × String) × Option Int)

/-- Default collection iteration order (`vector_store.py:162`). -/
def allCollections : List String :=
  ["data_dictionary", "metrics", "business_rules", "documentation"]

/-- Sort key used at `vector_store.py:201`: a missing distance sorts after
every present one (`float("inf")`). -/
def distLe (a b : Option Int) : Bool :=
  match a, b with
  | none, none => true
  | none, some _ => false
  | some _, none => true
  | some x, some y => x ≤ y

/-- Stable insertion used to model Python's stable `list.sort(key=...)`:
an element is placed before the first strictly-greater element, after equal
keys. -/
def insertByDist (x : RetrievedItem) : List RetrievedItem → List RetrievedItem
  | [] => [x]
  | y :: ys =>
    if distLe x.distance y.distance then x :: y :: ys
    else y :: insertByDist x ys

/-- Python's stable ascending sort by the distance key. -/
def sortByDistance (l : List RetrievedItem) : List RetrievedItem :=
  l.foldr insertByDist []

/-- `VectorStoreService.search` (`vector_store.py:144-203`) with the Chroma
backend abstracted by `env`: gather per-collection results in the fixed
collection order, sort ascending by distance (missing distances last), and
keep the first `2 × top_k`. -/
def vs_search (env : SearchEnv) (query : String) (top_k : Nat) : List RetrievedItem :=
  let results := allCollections.flatMap (fun cname =>
    (env cname query).map (fun r =>
      { content := r.1, collection := cname, metadata := r.2.1,
        distance := r.2.2 }))
  (sortByDistance results).take (top_k * 2)

/-- Insertion into the `by_collection` Python dict (`vector_store.py:224-229`):
dicts preserve insertion order, and each item is appended to its collection's
bucket. -/
def groupInsert (groups : List (String × List RetrievedItem))
    (i : RetrievedItem) : List (String × List RetrievedItem) :=
  match groups with
  | [] => [(i.collection, [i])]
  | (k, its) :: rest =>
    if k = i.collection then (k, its ++ [i]) :: rest
    else (k, its) :: groupInsert rest i

/-- The `by_collection` dict built from the sorted results. -/
def groupByCollection (items : List RetrievedItem) :
    List (String × List RetrievedItem) :=
  items.foldl groupInsert []

/-- `section_titles.get(collection, collection.upper())`
(`vector_store.py:232-240`). -/
def section_title (c : String) : String :=
  if c = "data_dictionary" then "DATA DICTIONARY (Tables & Columns)"
  else if c = "metrics" then "METRIC DEFINITIONS"
  else if c = "business_rules" then "BUSINESS RULES"
  else if c = "documentation" then "DOCUMENTATION"
  else (pyUpper c.toList).asString

/-- `VectorStoreService.get_all_context` (`vector_store.py:205-245`): search,
return the sentinel when nothing was found, otherwise group by collection (in
dict insertion order) and render each group as a header line followed by the
raw content of each item, all joined with newlines. -/
def get_all_context (env : SearchEnv) (query : String) (top_k : Nat) : String :=
  let results := vs_search env query top_k
  if results.isEmpty then "No relevant context found."
  else
    let groups := groupByCollection results
    let parts := groups.flatMap (fun g =>
      ("\n=== " ++ section_title g.1 ++ " ===") :: g.2.map (fun i => "\n" ++ i.content))
    String.intercalate "\n" parts

/-! ## `ChatHistoryService` title rule (`chat_history_service.py:77-143`) -/

/-- `ChatHistoryService._generate_title` (`chat_history_service.py:135-143`). -/
def generate_title (question : List Char) : List Char :=
  if question.isEmpty then "New Chat".toList
  else if 50 < (pyStrip question).length then
    (pyStrip question).take 47 ++ "...".toList
  else pyStrip question

/-- The title persisted by `create_or_update_session` for a brand-new session
whose `first_question` is `q` (`chat_history_service.py:114`): an empty (hence
falsy) first question yields the fallback `"New Chat"`, otherwise
`_generate_title` runs. -/
def persisted_title (q : List Char) : List Char :=
  if ¬ q.isEmpty then generate_title q else "New Chat".toList

/-! ## `RAGPipeline` canned conversational replies
(`rag_pipeline.py:220-249,284-355`) -/

/-- `RAGPipeline._get_conversational_response_single`
(`rag_pipeline.py:220-249`). -/
def conversational_response_single (question : List Char) : String :=
  let ql := pyStrip (pyLower question)
  if ["who are you", "what are you", "introduce yourself",
      "tell me about yourself", "what is your name",
      "your name"].any (fun p => hasSubstr p.toList ql) then
    "I\x27m your Analytics Assistant for business data queries."
  else if ["what can you do", "how do you work",
      "help me"].any (fun p => hasSubstr p.toList ql) then
    "I can help you analyze sales, revenue, customers, products, and regional data."
  else if ["hello", "hi", "hey", "good morning", "good afternoon",
      "good evening"].any (fun p => hasSubstr p.toList ql) then
    "Hello! How can I help you with your business data?"
  else if ["thank you", "thanks"].any (fun p => hasSubstr p.toList ql) then
    "You\x27re welcome!"
  else if ["bye", "goodbye"].any (fun p => hasSubstr p.toList ql) then
    "Goodbye!"
  else if OUT_OF_SCOPE_PATTERNS.any (fun p => hasSubstr p.toList ql) then
    "Sorry, I can only answer questions about your business data."
  else
    "I\x27m your Analytics Assistant for business data queries."

/-- Alternatives of the self-introduction pattern
`(?:i am|i'm|my name is|call me)` (`rag_pipeline.py:320-322`), in source
order. -/
def introAlts : List String := ["i am", "i\x27m", "my name is", "call me"]

/-- `\s+(.+)` after a matched alternative: at least one whitespace character,
then the greedy capture. -/
def wsPlusCapture : List Char → Option (List Char)
  | [] => none
  | c :: rest => if isPySpace c then
      -- `\s+` must keep at least `c`, so `.+` can only start inside `rest`.
      captureWsRest rest
    else none

/-- `re.search(r"(?:i am|i'm|my name is|call me)\s+(.+)", ql)`: try each
position left to right, and at each position the alternatives in order. -/
def introSearch : List Char → Option (List Char)
  | [] => none
  | c :: rest =>
    match introAlts.findSome? (fun alt =>
      if alt.toList.isPrefixOf (c :: rest) then
        wsPlusCapture ((c :: rest).drop alt.toList.length)
      else none) with
    | some g => some g
    | none => introSearch rest

/-- Python `str.capitalize()`: first character upper-cased, the rest
lower-cased. -/
def pyCapitalize (w : List Char) : List Char :=
  match w with
  | [] => []
  | c :: t => Char.toUpper c :: pyLower t

/-- Name extraction of the introduction branch (`rag_pipeline.py:326-328`):
strip the capture, strip trailing `.,!?`, then capitalize each word and join
with single spaces. -/
def introName (g : List Char) : List Char :=
  let name := pyRstrip ['.', ',', '!', '?'] (pyStrip g)
  List.intercalate [' '] ((pyWords name).map pyCapitalize)

/-- `RAGPipeline._get_conversational_response` (`rag_pipeline.py:284-355`). -/
def conversational_response (question : List Char) : String :=
  let ql := pyStrip (pyLower question)
  if is_multi_question question then
    "Processing multiple questions..."
  else if ["who are you", "what are you", "introduce yourself",
      "tell me about yourself", "what is your name",
      "your name"].any (fun p => hasSubstr p.toList ql) then
    "I\x27m your Analytics Assistant! I help you explore and understand your business data " ++
    "through natural language questions. You can ask me about sales, revenue, customers, " ++
    "products, regional performance, and more. Just ask questions like \x27What are the total sales?\x27 " ++
    "or \x27Show me the top customers\x27 and I\x27ll query the database and provide insights."
  else if ["what can you do", "how do you work",
      "help me"].any (fun p => hasSubstr p.toList ql) then
    "I can help you analyze your business data! Here\x27s what I can do:\n\n" ++
    "• Answer questions about sales, revenue, and profits\n" ++
    "• Show customer and product performance\n" ++
    "• Analyze regional data and trends\n" ++
    "• Compare time periods (today, this month, etc.)\n" ++
    "• Find top performers and identify patterns\n\n" ++
    "Try asking: \x27What is the total sales?\x27 or \x27Show me sales by region\x27"
  else if ["hello", "hi", "hey", "good morning", "good afternoon",
      "good evening"].any (fun p => hasSubstr p.toList ql) then
    "Hello! I\x27m your Analytics Assistant. How can I help you explore your business data today?"
  else
    match introSearch ql with
    | some g =>
      "Nice to meet you, " ++ (introName g).asString ++
      "! I\x27m your Analytics Assistant. How can I help you explore your business data today?"
    | none =>
      if ["thank you", "thanks"].any (fun p => hasSubstr p.toList ql) then
        "You\x27re welcome! Feel free to ask if you have more questions about your data."
      else if ["bye", "goodbye"].any (fun p => hasSubstr p.toList ql) then
        "Goodbye! Come back anytime you need help with your business analytics."
      else if OUT_OF_SCOPE_PATTERNS.any (fun p => hasSubstr p.toList ql) then
        "Sorry, I\x27m your Analytics Assistant and I can only help with questions about your business data. " ++
        "I can\x27t answer general knowledge questions.\n\n" ++
        "Try asking questions like:\n" ++
        "• \x27What is the total sales?\x27\n" ++
        "• \x27Show me top customers\x27\n" ++
        "• \x27What are the sales by region?\x27"
      else
        "I\x27m your Analytics Assistant, designed to help you explore business data. " ++
        "Try asking questions about sales, customers, products, or regional performance!"

/-! ## `SimplePipeline._pattern_to_sql` (`rag_pipeline.py:567-633`)

The SQL text constants reproduce the triple-quoted literals byte for byte,
including the indentation of their continuation lines. -/

/-- `SimplePipeline._pattern_to_sql`: map a question to
`(refined_question, sql)` by keyword patterns over the lowercased text. -/
def pattern_to_sql (question : List Char) : String × String :=
  let question_lower := pyLower question
  if hasSubstr "today".toList question_lower &&
      (hasSubstr "sale".toList question_lower ||
       hasSubstr "revenue".toList question_lower) then
    ("What is the total sales amount for today?",
     "SELECT SUM(amount) as total_sales\n                   FROM sales\n                   WHERE status = \x27COMPLETED\x27\n                   AND order_date = date(\x27now\x27)")
  else if hasSubstr "total".toList question_lower &&
      hasSubstr "sale".toList question_lower then
    ("What is the total sales amount?",
     "SELECT SUM(amount) as total_sales\n                   FROM sales\n                   WHERE status = \x27COMPLETED\x27")
  else if hasSubstr "region".toList question_lower &&
      hasSubstr "sale".toList question_lower then
    ("What are the total sales by region?",
     "SELECT r.name as region, SUM(s.amount) as total_sales\n                   FROM sales s\n                   JOIN regions r ON s.region_id = r.id\n                   WHERE s.status = \x27COMPLETED\x27\n                   GROUP BY r.name\n                   ORDER BY total_sales DESC")
  else if hasSubstr "product".toList question_lower &&
      hasSubstr "sale".toList question_lower then
    ("What are the top selling products?",
     "SELECT p.name as product, p.category, SUM(s.amount) as total_sales\n                   FROM sales s\n                   JOIN products p ON s.product_id = p.id\n                   WHERE s.status = \x27COMPLETED\x27\n                   GROUP BY p.name, p.category\n                   ORDER BY total_sales DESC\n                   LIMIT 10")
  else if hasSubstr "order".toList question_lower &&
      (hasSubstr "count".toList question_lower ||
       hasSubstr "how many".toList question_lower) then
    ("How many orders have been placed?",
     "SELECT COUNT(*) as order_count\n                   FROM sales\n                   WHERE status = \x27COMPLETED\x27")
  else
    ("What is the total sales amount?",
     "SELECT SUM(amount) as total_sales\n               FROM sales\n               WHERE status = \x27COMPLETED\x27")

/-! ## `RAGPipeline.process_query` (`rag_pipeline.py:372-534`) as a state
machine with an explicit effect trace -/

/-- External collaborators of one pipeline run.  Generation calls are
modelled as total oracles (a run in which the provider raises ends in the
re-raising handler, which none of the claims concern). -/
structure PipelineEnv where
  /-- The vector search capability behind `vector_store.get_all_context`. -/
  search : SearchEnv
  /-- The provider response text for the `generate_sql` call, given the
  question and the formatted context. -/
  sqlResponse : String → String → String
  /-- The SQLAlchemy session behind `execute_query` (errors model raised
  backend exceptions). -/
  backend : List Char → Except String (List Row)
  /-- The provider response for `compose_answer`, given the refined question
  and the result rows. -/
  composeAnswer : String → List Row → String

/-- `DatabaseService.execute_query` as seen by the pipeline: validation
`ValueError`s and backend exceptions both surface as caught exceptions whose
text is `str(e)`. -/
def db_execute (env : PipelineEnv) (sql : String) : Except String (List Row) :=
  match validateQuery sql.toList with
  | some msg => Except.error msg
  | none => env.backend sql.toList

/-- `LLMService.generate_sql` with the provider call supplied by `env`. -/
def gen_sql (env : PipelineEnv) (question context : String) : String × String :=
  let p := generate_sql_parse question.toList (env.sqlResponse question context).toList
  (p.1.asString, p.2.asString)

/-- Result dict of `RAGPipeline._process_single_question`
(`rag_pipeline.py:132-190`). -/
structure SingleResult where
  question : String
  refined_question : String
  sql : Option String
  table : List Row
  answer : String
deriving DecidableEq

/-- `RAGPipeline._process_single_question`: conversational sub-questions get
a canned reply; otherwise retrieve context, generate SQL, execute it (an
execution error becomes an inline error answer), and compose the answer. -/
def process_single_question (env : PipelineEnv) (q : String) : SingleResult :=
  if is_conversational_query_single q.toList then
    { question := q, refined_question := q, sql := none, table := [],
      answer := conversational_response_single q.toList }
  else
    let context := get_all_context env.search q 5
    let rs := gen_sql env q context
    match db_execute env rs.2 with
    | Except.error e =>
      { question := q, refined_question := rs.1, sql := some rs.2,
        table := [], answer := "Error executing query: " ++ e }
    | Except.ok rows =>
      { question := q, refined_question := rs.1, sql := some rs.2,
        table := rows, answer := env.composeAnswer rs.1 rows }

/-- Side effects of one `process_query` run that the specification talks
about: appends to the in-memory `ConversationStore`, session upserts, and
`save_message` writes to the durable history store. -/
inductive Event
  | memAdd (role content : String)
  | sessionUpsert (conversationId : String) (firstQuestion : Option String)
  | histSave (role content : String) (sqlQuery : Option String)
      (tableData : Option (List Row)) (refinedQuestion : Option String)
deriving DecidableEq

/-- The `QueryResponse` produced by one run (`schemas.py:11-16`). -/
structure QueryResponseM where
  refined_question : String
  sql : Option String
  table : List Row
  final_answer : String
  conversation_id : String
deriving DecidableEq

/-- A completed run: the returned response and the ordered effect trace. -/
structure PipelineRun where
  response : QueryResponseM
  events : List Event

/-- `all_tables` accumulation of the multi-question branch
(`rag_pipeline.py:415-416`): extend only when the sub-result's table is
truthy (non-empty). -/
def multi_all_tables (results : List SingleResult) : List Row :=
  results.foldl (fun acc r => if ¬ r.table.isEmpty then acc ++ r.table else acc) []

/-- `all_sql` accumulation (`rag_pipeline.py:417-418`): keep only truthy sql
values (present and non-empty). -/
def multi_all_sql (results : List SingleResult) : List String :=
  results.filterMap (fun r =>
    match r.sql with
    | some s => if s ≠ "" then some s else none
    | none => none)

/-- The combined answer of the multi-question branch
(`rag_pipeline.py:421-424`). -/
def multi_combined_answer (results : List SingleResult) : String :=
  "Here are the answers to your questions:\n\n" ++
    String.join (results.enum.map (fun p =>
      "**Q" ++ toString (p.1 + 1) ++ ": " ++ p.2.question ++ "**\n" ++
      p.2.answer ++ "\n\n"))

/-- `RAGPipeline.process_query`.  `prior` is the message list already stored
for this conversation (so `is_first_message` is `prior = []`), `cid` the
(possibly fresh) conversation id.  Every branch starts by appending the user
message in memory, upserting the session, and saving the user message to the
durable history; the branches then differ as in the source. -/
def process_query (env : PipelineEnv) (prior : List (String × String))
    (cid : String) (question : String) : PipelineRun :=
  let entry : List Event :=
    [Event.memAdd "user" question,
     Event.sessionUpsert cid (if prior.length + 1 = 1 then some question else none),
     Event.histSave "user" question none none none]
  if is_multi_question question.toList then
    let questions := (extract_questions question.toList).map List.asString
    let results := questions.map (process_single_question env)
    let all_tables := multi_all_tables results
    let all_sql := multi_all_sql results
    let combined_answer := multi_combined_answer results
    let combined_sql :=
      if ¬ all_sql.isEmpty then some (String.intercalate "\n\n---\n\n" all_sql)
      else none
    let resp : QueryResponseM :=
      { refined_question := question, sql := combined_sql,
        table := all_tables, final_answer := combined_answer,
        conversation_id := cid }
    { response := resp,
      events := entry ++
        [Event.memAdd "assistant" combined_answer,
         Event.histSave "assistant" combined_answer combined_sql
           (some all_tables) (some question)] }
  else if is_conversational_query question.toList then
    let response := conversational_response question.toList
    let resp : QueryResponseM :=
      { refined_question := question, sql := none, table := [],
        final_answer := response, conversation_id := cid }
    { response := resp,
      events := entry ++
        [Event.memAdd "assistant" response,
         Event.histSave "assistant" response none none none] }
  else
    let context := get_all_context env.search question 5
    let rs := gen_sql env question context
    match db_execute env rs.2 with
    | Except.error e =>
      let error_answer :=
        "I encountered an error executing the query: " ++ e ++
        ". Please try rephrasing your question."
      let resp : QueryResponseM :=
        { refined_question := rs.1, sql := some rs.2, table := [],
          final_answer := error_answer, conversation_id := cid }
      { response := resp,
        events := entry ++ [Event.memAdd "assistant" error_answer] }
    | Except.ok rows =>
      let final_answer := env.composeAnswer rs.1 rows
      let resp : QueryResponseM :=
        { refined_question := rs.1, sql := some rs.2,
          table := rows, final_answer := final_answer,
          conversation_id := cid }
      { response := resp,
        events := entry ++
          [Event.memAdd "assistant" final_answer,
           Event.histSave "assistant" final_answer (some rs.2) (some rows)
             (some rs.1)] }

/-- The four terminal branches of `process_query` that the specification
names. -/
inductive Branch
  | multi
  | conversational
  | dataSuccess
  | sqlError
deriving DecidableEq

/-- Which branch a run takes (determined by the question and the oracles). -/
def branchOf (env : PipelineEnv) (question : String) : Branch :=
  if is_multi_question question.toList then Branch.multi
  else if is_conversational_query question.toList then Branch.conversational
  else
    match db_execute env
        (gen_sql env question (get_all_context env.search question 5)).2 with
    | Except.error _ => Branch.sqlError
    | Except.ok _ => Branch.dataSuccess

/-- Contents appended to the in-memory store with role `assistant`. -/
def assistant_mem_msgs (tr : List Event) : List String :=
  tr.filterMap (fun e =>
    match e with
    | Event.memAdd r c => if r = "assistant" then some c else none
    | _ => none)

/-- Contents written to the durable history via `save_message` with role
`assistant`. -/
def assistant_saved_msgs (tr : List Event) : List String :=
  tr.filterMap (fun e =>
    match e with
    | Event.histSave r c _ _ _ => if r = "assistant" then some c else none
    | _ => none)

/-- Some `save_message` write with role `assistant` and content `a` occurs. -/
def saved_as_assistant (a : String) (tr : List Event) : Bool :=
  tr.any (fun e =>
    match e with
    | Event.histSave r c _ _ _ => r = "assistant" && c = a
    | _ => false)

/-- The user message was both appended in memory and mirrored durably. -/
def UserMirrored (q : String) (tr : List Event) : Prop :=
  Event.memAdd "user" q ∈ tr ∧ Event.histSave "user" q none none none ∈ tr

/-- An assistant message was appended in memory, and every assistant message
appended in memory was also mirrored durably. -/
def AssistantMirrored (tr : List Event) : Prop :=
  assistant_mem_msgs tr ≠ [] ∧
    ∀ a ∈ assistant_mem_msgs tr, saved_as_assistant a tr = true

instance (q : String) (tr : List Event) : Decidable (UserMirrored q tr) := by
  unfold UserMirrored; infer_instance

instance (tr : List Event) : Decidable (AssistantMirrored tr) := by
  unfold AssistantMirrored; infer_instance

/-! ## Auxiliary definitions used by the claim statements -/

/-- The categories of an item list in order of first appearance — the key
order a Python dict acquires when the items are inserted one by one. -/
def header_order (items : List RetrievedItem) : List String :=
  items.foldl (fun acc i => if i.collection ∈ acc then acc else acc ++ [i.collection]) []

/-- The bucket stored under key `c` in the grouped association list (empty
when the key is absent). -/
def lookup_group (c : String) : List (String × List RetrievedItem) → List RetrievedItem
  | [] => []
  | (k, its) :: rest => if k = c then its else lookup_group c rest

/-- Concrete outcome sequence: rate-limited twice, then success. -/
def outcomesRRS : Nat → LLMOutcome := fun n =>
  if n = 0 then LLMOutcome.rateLimited 1
  else if n = 1 then LLMOutcome.rateLimited 2
  else LLMOutcome.success "ok"

/-- The refined-question rule as the specification words it (for comparison
with the code): the first response line beginning with `REFINED:` supplies
the refined question; the original question is the default. -/
def refined_first_line_spec (question response : List Char) : List Char :=
  match ((pyStrip response).splitOn '\n').find?
      (fun l => "REFINED:".toList.isPrefixOf l) with
  | some l => pyStrip (l.drop 8)
  | none => question

/-- A two-collection search capability on which the better-ranked item lives
in `metrics`: Chroma returns one document per collection. -/
def c6Env : SearchEnv := fun cname _q =>
  if cname = "data_dictionary" then [("dd", [], some 5)]
  else if cname = "metrics" then [("m", [], some 1)] else []

/-- A pipeline environment whose SQL backend always raises. -/
def c5Env : PipelineEnv :=
  { search := fun _ _ => [],
    sqlResponse := fun _ _ => "SQL: SELECT 1",
    backend := fun _ => Except.error "boom",
    composeAnswer := fun _ _ => "answer" }

/-- A data-query question (contains the keyword `sales`, no bullets, no
question marks). -/
def c5Q : String := "total sales please now thanks"

/-! ## Claim theorems -/

/-- `hasSubstr` agrees with the existence of a contiguous decomposition. -/
theorem hasSubstr_iff (kw l : List Char) :
    hasSubstr kw l = true ↔ ∃ pre suf, l = pre ++ kw ++ suf := by
  induction l with
  | nil =>
    simp only [hasSubstr, List.isEmpty_iff]
    constructor
    · intro h; exact ⟨[], [], by simp [h]⟩
    · rintro ⟨pre, suf, h⟩
      have h' := h.symm
      simp only [List.append_eq_nil] at h'
      exact h'.1.2
  | cons c t ih =>
    simp only [hasSubstr, Bool.or_eq_true, ih]
    constructor
    · rintro (h | ⟨pre, suf, rfl⟩)
      · rcases (List.isPrefixOf_iff_prefix.mp h) with ⟨suf, hsuf⟩
        exact ⟨[], suf, by simp [hsuf]⟩
      · exact ⟨c :: pre, suf, by simp⟩
    · rintro ⟨pre, suf, hdec⟩
      cases pre with
      | nil =>
        left
        exact List.isPrefixOf_iff_prefix.mpr ⟨suf, by simpa using hdec.symm⟩
      | cons p ps =>
        right
        refine ⟨ps, suf, ?_⟩
        simpa using congrArg List.tail hdec

/-- Dropping a leading run of `p`-characters cannot destroy an occurrence of a
block `mid` whose first character falsifies `p`. -/
theorem dropWhile_keeps_mid (p : Char → Bool) (mid : List Char)
    (hne : mid ≠ []) (hh : p mid.headI = false) :
    ∀ pre suf : List Char, ∃ pre2,
      List.dropWhile p (pre ++ mid ++ suf) = pre2 ++ mid ++ suf := by
  intro pre
  induction pre with
  | nil =>
    intro suf
    refine ⟨[], ?_⟩
    cases mid with
    | nil => exact absurd rfl hne
    | cons m ms =>
      simp only [List.headI] at hh
      simp [List.dropWhile_cons, hh]
  | cons a pre' ih =>
    intro suf
    by_cases ha : p a = true
    · obtain ⟨pre2, h2⟩ := ih suf
      refine ⟨pre2, ?_⟩
      calc List.dropWhile p ((a :: pre') ++ mid ++ suf)
          = List.dropWhile p (pre' ++ mid ++ suf) := by
            simp [List.dropWhile_cons, ha]
        _ = pre2 ++ mid ++ suf := h2
    · exact ⟨a :: pre', by simp [List.dropWhile_cons, ha]⟩

/-- A substring occurrence whose first and last characters are not whitespace
survives Python `str.strip()`. -/
theorem hasSubstr_pyStrip (kw l : List Char) (hne : kw ≠ [])
    (hh : isPySpace kw.headI = false)
    (hl : isPySpace kw.reverse.headI = false)
    (h : hasSubstr kw l = true) : hasSubstr kw (pyStrip l) = true := by
  rw [hasSubstr_iff] at h ⊢
  obtain ⟨pre, suf, rfl⟩ := h
  obtain ⟨pre2, h2⟩ := dropWhile_keeps_mid isPySpace kw hne hh pre suf
  have hrev : kw.reverse ≠ [] := by simpa using hne
  obtain ⟨pre3, h3⟩ := dropWhile_keeps_mid isPySpace kw.reverse hrev hl
    suf.reverse pre2.reverse
  refine ⟨pre2, pre3.reverse, ?_⟩
  rw [pyStrip, h2, dropTrailWhile]
  have hrw : (pre2 ++ kw ++ suf).reverse = suf.reverse ++ kw.reverse ++ pre2.reverse := by
    simp
  rw [hrw, h3]
  simp


/-- `validateQuery` rejects exactly the texts that fail the read-only
invariant. -/
theorem validateQuery_isSome_iff (sql : List Char) :
    (validateQuery sql).isSome = true ↔
      (¬ ("SELECT".toList <+: pyUpper (pyStrip sql)) ∨
        ∃ kw ∈ dangerous_keywords,
          hasSubstr kw.toList (pyUpper (pyStrip sql)) = true) := by
  unfold validateQuery
  by_cases hp : ("SELECT".toList.isPrefixOf (pyUpper (pyStrip sql))) = true
  · rw [if_neg (not_not_intro hp)]
    have hpre : "SELECT".toList <+: pyUpper (pyStrip sql) := by simpa using hp
    cases hfind : dangerous_keywords.find?
        (fun kw => hasSubstr kw.toList (pyUpper (pyStrip sql))) with
    | none =>
      have hnone : ¬ ∃ kw ∈ dangerous_keywords,
          hasSubstr kw.toList (pyUpper (pyStrip sql)) = true := by
        rw [← List.find?_isSome, hfind]
        simp
      constructor
      · intro h; simp at h
      · rintro (h | h)
        · exact absurd hpre h
        · exact absurd h hnone
    | some kw =>
      have hsome : ∃ kw ∈ dangerous_keywords,
          hasSubstr kw.toList (pyUpper (pyStrip sql)) = true := by
        rw [← List.find?_isSome, hfind]
        simp
      exact iff_of_true rfl (Or.inr hsome)
  · rw [if_pos hp]
    have hnpre : ¬ ("SELECT".toList <+: pyUpper (pyStrip sql)) := by
      simpa using hp
    exact iff_of_true rfl (Or.inl hnpre)

/-- C1: for every query text, `execute_query` raises a validation
`ValueError` if and only if the trimmed, upper-cased text does not start with
`SELECT` or contains one of the nine forbidden keywords as a substring; and a
backend execution attempt is made exactly when no validation error is raised
(so on rejection no backend execution occurs). -/
theorem execute_query_validates_iff (sql : List Char)
    (backend : List Char → Except String (List Row)) :
    ((∃ msg, (execute_query_instr backend sql).1 =
        Except.error (DbError.validation msg)) ↔
      (¬ ("SELECT".toList <+: pyUpper (pyStrip sql)) ∨
        ∃ kw ∈ dangerous_keywords,
          hasSubstr kw.toList (pyUpper (pyStrip sql)) = true)) ∧
    ((execute_query_instr backend sql).2 = false ↔
      (∃ msg, (execute_query_instr backend sql).1 =
        Except.error (DbError.validation msg))) := by
  have hv := validateQuery_isSome_iff sql
  constructor
  · rw [← hv]
    unfold execute_query_instr
    cases hval : validateQuery sql with
    | some msg => simp
    | none =>
      simp only [Option.isSome_none]
      cases backend sql <;> simp
  · unfold execute_query_instr
    cases hval : validateQuery sql with
    | some msg => simp
    | none => cases backend sql <;> simp

/-- C2: the transport makes at most 3 attempts; a rate-limited failure on
attempt `n` (1-based) is followed by a `retry_delay × n` sleep; two
rate-limited failures followed by a success yield exactly the two strictly
increasing waits `[5, 10]` and the successful result on the 3rd attempt; a
non-rate-limit failure propagates immediately with no further attempt, on
whichever attempt it occurs; three rate-limited failures raise the last
error with exactly 3 attempts (no 4th); and in general, when the first `k`
attempts are all rate-limited, the first `k` waits are
`retry_delay × 1, …, retry_delay × k`. -/
theorem call_llm_retry_policy (o : Nat → LLMOutcome) :
    ((call_llm o).attempts ≤ 3) ∧
    (∀ e1 e2 r, o 0 = LLMOutcome.rateLimited e1 →
      o 1 = LLMOutcome.rateLimited e2 → o 2 = LLMOutcome.success r →
      (call_llm o).result = Except.ok r ∧
      (call_llm o).waits = [llm_retry_delay * 1, llm_retry_delay * 2] ∧
      llm_retry_delay * 1 < llm_retry_delay * 2 ∧
      (call_llm o).attempts = 3) ∧
    (∀ e, o 0 = LLMOutcome.failure e →
      (call_llm o).result = Except.error (LLMErr.other e) ∧
      (call_llm o).attempts = 1 ∧ (call_llm o).waits = []) ∧
    (∀ e1 e, o 0 = LLMOutcome.rateLimited e1 → o 1 = LLMOutcome.failure e →
      (call_llm o).result = Except.error (LLMErr.other e) ∧
      (call_llm o).attempts = 2) ∧
    (∀ e1 e2 e, o 0 = LLMOutcome.rateLimited e1 →
      o 1 = LLMOutcome.rateLimited e2 → o 2 = LLMOutcome.failure e →
      (call_llm o).result = Except.error (LLMErr.other e) ∧
      (call_llm o).attempts = 3) ∧
    (∀ e1 e2 e3, o 0 = LLMOutcome.rateLimited e1 →
      o 1 = LLMOutcome.rateLimited e2 → o 2 = LLMOutcome.rateLimited e3 →
      (call_llm o).result = Except.error (LLMErr.rate e3) ∧
      (call_llm o).attempts = 3) ∧
    (∀ e1 r, o 0 = LLMOutcome.rateLimited e1 → o 1 = LLMOutcome.success r →
      (call_llm o).result = Except.ok r ∧
      (call_llm o).waits = [llm_retry_delay * 1] ∧
      (call_llm o).attempts = 2) ∧
    (∀ k, k ≤ 3 → (∀ j, j < k → ∃ ej, o j = LLMOutcome.rateLimited ej) →
      (call_llm o).waits.take k =
        (List.range k).map (fun i => llm_retry_delay * (i + 1))) := by
  refine ⟨?_, ?_, ?_, ?_, ?_, ?_, ?_, ?_⟩
  · rcases h0 : o 0 with t0 | e0 | e0 <;> rcases h1 : o 1 with t1 | e1 | e1 <;>
      rcases h2 : o 2 with t2 | e2 | e2 <;>
        simp [call_llm, call_llm_go, h0, h1, h2]
  · intro e1 e2 r h0 h1 h2
    refine ⟨?_, ?_, by simp [llm_retry_delay], ?_⟩ <;>
      simp [call_llm, call_llm_go, h0, h1, h2, llm_retry_delay]
  · intro e h0
    refine ⟨?_, ?_, ?_⟩ <;> simp [call_llm, call_llm_go, h0]
  · intro e1 e h0 h1
    refine ⟨?_, ?_⟩ <;> simp [call_llm, call_llm_go, h0, h1]
  · intro e1 e2 e h0 h1 h2
    refine ⟨?_, ?_⟩ <;> simp [call_llm, call_llm_go, h0, h1, h2]
  · intro e1 e2 e3 h0 h1 h2
    refine ⟨?_, ?_⟩ <;> simp [call_llm, call_llm_go, h0, h1, h2]
  · intro e1 r h0 h1
    refine ⟨?_, ?_, ?_⟩ <;> simp [call_llm, call_llm_go, h0, h1]
  · intro k hk hrl
    match k, hk with
    | 0, _ => simp
    | 1, _ =>
      obtain ⟨e0, h0⟩ := hrl 0 (by omega)
      rcases h1 : o 1 with t1 | e1 | e1 <;> rcases h2 : o 2 with t2 | e2 | e2 <;>
        simp [call_llm, call_llm_go, h0, h1, h2, List.range_succ]
    | 2, _ =>
      obtain ⟨e0, h0⟩ := hrl 0 (by omega)
      obtain ⟨e1, h1⟩ := hrl 1 (by omega)
      rcases h2 : o 2 with t2 | e2 | e2 <;>
        simp [call_llm, call_llm_go, h0, h1, h2, List.range_succ]
    | 3, _ =>
      obtain ⟨e0, h0⟩ := hrl 0 (by omega)
      obtain ⟨e1, h1⟩ := hrl 1 (by omega)
      obtain ⟨e2, h2⟩ := hrl 2 (by omega)
      simp [call_llm, call_llm_go, h0, h1, h2, List.range_succ]

/-- Witness for `call_llm_retry_policy` at a concrete outcome sequence. -/
theorem call_llm_retry_policy_witness :
    (call_llm outcomesRRS).result = Except.ok "ok" ∧
    (call_llm outcomesRRS).waits = [llm_retry_delay * 1, llm_retry_delay * 2] ∧
    llm_retry_delay * 1 < llm_retry_delay * 2 ∧
    (call_llm outcomesRRS).attempts = 3 :=
  (call_llm_retry_policy outcomesRRS).2.1 1 2 "ok" rfl rfl rfl

/-- Every data keyword is non-empty and has non-whitespace first and last
characters (so stripping cannot destroy an occurrence). -/
theorem data_keywords_wf : ∀ kw ∈ DATA_KEYWORDS, kw.toList ≠ [] ∧
    isPySpace kw.toList.headI = false ∧
    isPySpace kw.toList.reverse.headI = false := by decide

/-- C3: any input whose lowercased form contains a data keyword is never
classified as conversational — neither by the branch selection of
`process_query` (which sends it to the multi-question or data-query branch)
nor by `_is_conversational_query_single` — regardless of which conversational
or out-of-scope phrases also occur in the text. -/
theorem data_keyword_never_conversational (t : List Char) (kw : String)
    (hkw : kw ∈ DATA_KEYWORDS)
    (hsub : hasSubstr kw.toList (pyLower t) = true) :
    classify t ≠ QueryClass.conversational ∧
    is_conversational_query_single t = false := by
  obtain ⟨hne, hh, hl⟩ := data_keywords_wf kw hkw
  have hsub' := hasSubstr_pyStrip kw.toList (pyLower t) hne hh hl hsub
  have hany : DATA_KEYWORDS.any
      (fun k => hasSubstr k.toList (pyStrip (pyLower t))) = true :=
    List.any_eq_true.mpr ⟨kw, hkw, hsub'⟩
  constructor
  · unfold classify
    by_cases hm : is_multi_question t = true
    · simp [hm]
    · have hc : is_conversational_query t = false := by
        unfold is_conversational_query
        rw [if_neg hm, if_pos hany]
      simp [hm, hc]
  · unfold is_conversational_query_single
    rw [if_pos hany]

/-- Witness for `data_keyword_never_conversational` at a concrete input that
also contains a conversational phrase. -/
theorem data_keyword_never_conversational_witness :
    ("sales" ∈ DATA_KEYWORDS) ∧
    hasSubstr "sales".toList (pyLower "hello sales".toList) = true ∧
    (classify "hello sales".toList ≠ QueryClass.conversational ∧
      is_conversational_query_single "hello sales".toList = false) :=
  ⟨by decide, by decide,
    data_keyword_never_conversational "hello sales".toList "sales"
      (by decide) (by decide)⟩

/-- C4 counterexample: `"a?b?"` has two `?` and every fragment's trimmed
length is ≤ 3, so `_extract_questions` returns the empty list (the claimed
"never empty" contract fails), even though the input is detected as a
multi-question. -/
theorem extract_questions_empty_counterexample :
    is_multi_question "a?b?".toList = true ∧
    extract_questions "a?b?".toList = [] := by decide

/-- C4 amended: `_extract_questions` returns a non-empty list for every
input except exactly those where fewer than two bullet items are found, the
text contains at least two `?`, and every `?`-fragment is discarded by the
trimmed-length filter — on those inputs it returns the empty list. -/
theorem extract_questions_empty_iff (t : List Char) :
    extract_questions t = [] ↔
      ((bullet_questions t).length < 2 ∧ 2 ≤ t.count '?' ∧
        qmark_questions t = []) := by
  unfold extract_questions
  by_cases hb : 2 ≤ (bullet_questions t).length
  · rw [if_pos hb]
    constructor
    · intro h
      rw [h] at hb
      simp at hb
    · rintro ⟨h1, -, -⟩
      exact absurd hb (by omega)
  · rw [if_neg hb]
    by_cases hq : 2 ≤ t.count '?'
    · rw [if_pos hq]
      constructor
      · intro h; exact ⟨by omega, hq, h⟩
      · rintro ⟨-, -, h⟩; exact h
    · rw [if_neg hq]
      constructor
      · intro h; simp at h
      · rintro ⟨-, h2, -⟩; exact absurd h2 hq

/-- C10: on `"1 total sales\n2 total expenses"` the detector and the
extractor disagree: both lines match the detection pattern
`^[\•\-\*\d\.]\s*.+` (a bare digit counts), so `_is_multi_question` is true
and `process_query` takes the multi-question branch; but neither line matches
the extraction patterns (`^[\•\-\*]\s*(.+)` or `^\d+[\.\)]\s*(.+)` — the
digit is not followed by `.` or `)`), there are fewer than two `?`, and the
whole trimmed input comes back as a single sub-question. -/
theorem multi_detect_extract_mismatch :
    is_multi_question "1 total sales\n2 total expenses".toList = true ∧
    classify "1 total sales\n2 total expenses".toList =
      QueryClass.multiQuestion ∧
    bullet_questions "1 total sales\n2 total expenses".toList = [] ∧
    "1 total sales\n2 total expenses".toList.count '?' < 2 ∧
    extract_questions "1 total sales\n2 total expenses".toList =
      [pyStrip "1 total sales\n2 total expenses".toList] ∧
    (extract_questions "1 total sales\n2 total expenses".toList).length = 1 := by
  decide

/-- C7 counterexample: with two `REFINED:` lines before the `SQL:` line, the
parser returns the text of the second (last) one, not the first as the
specification states. -/
theorem generate_sql_refined_counterexample :
    (generate_sql_parse "orig".toList
      "REFINED: a\nREFINED: b\nSQL: SELECT 1".toList).1 = "b".toList ∧
    refined_first_line_spec "orig".toList
      "REFINED: a\nREFINED: b\nSQL: SELECT 1".toList = "a".toList ∧
    ("b".toList : List Char) ≠ "a".toList := by decide

/-- A line cannot start with both `REFINED:` and `SQL:`. -/
theorem not_sql_of_refined (l : List Char)
    (hr : "REFINED:".toList.isPrefixOf l = true) :
    "SQL:".toList.isPrefixOf l = false := by
  cases l with
  | nil => simp at hr
  | cons c rest =>
    have hc : c = 'R' := by
      have := List.isPrefixOf_iff_prefix.mp hr
      obtain ⟨t, ht⟩ := this
      have := congrArg (List.headI) ht
      simpa using this.symm
    subst hc
    simp [List.isPrefixOf]

/-- The refined question computed by the parsing loop is the (stripped,
`REFINED:`-less) text of the last `REFINED:`-prefixed line occurring before
the first `SQL:`-prefixed line, with the initial value as default (the fold
keeps only the last such line, or the default when there is none). -/
theorem gen_sql_loop_refined_eq (lines : List (List Char)) :
    ∀ cur, (gen_sql_loop cur lines).1 =
      ((lines.takeWhile (fun l => !("SQL:".toList.isPrefixOf l))).filter
        (fun l => "REFINED:".toList.isPrefixOf l)).foldl
        (fun _ l => pyStrip (l.drop 8)) cur := by
  induction lines with
  | nil => intro cur; rfl
  | cons l rest ih =>
    intro cur
    by_cases hr : "REFINED:".toList.isPrefixOf l = true
    · have hs := not_sql_of_refined l hr
      have hstep : gen_sql_loop cur (l :: rest) =
          gen_sql_loop (pyStrip (l.drop 8)) rest := by
        simp only [gen_sql_loop]
        rw [if_pos hr]
      rw [hstep, List.takeWhile_cons, if_pos (by simp only [hs]; rfl),
        List.filter_cons_of_pos (by exact hr), List.foldl_cons]
      exact ih (pyStrip (l.drop 8))
    · by_cases hsql : "SQL:".toList.isPrefixOf l = true
      · have hstep : (gen_sql_loop cur (l :: rest)).1 = cur := by
          simp only [gen_sql_loop]
          rw [if_neg hr, if_pos hsql]
        rw [hstep, List.takeWhile_cons, if_neg (by simp only [hsql]; decide)]
        rfl
      · have hs2 : "SQL:".toList.isPrefixOf l = false := by
          revert hsql
          cases "SQL:".toList.isPrefixOf l <;> simp
        have hstep : gen_sql_loop cur (l :: rest) = gen_sql_loop cur rest := by
          simp only [gen_sql_loop]
          rw [if_neg hr, if_neg hsql]
        rw [hstep, List.takeWhile_cons, if_pos (by simp only [hs2]; rfl),
          List.filter_cons_of_neg (by exact hr)]
        exact ih cur

/-- C7 amended: for every response, the returned refined question is the
stripped text following `REFINED:` on the *last* line beginning with
`REFINED:` among the lines strictly before the first line beginning with
`SQL:` (all lines when there is no `SQL:` line), and the original question
when no such line exists. -/
theorem generate_sql_refined_rule (question response : List Char) :
    (generate_sql_parse question response).1 =
      ((((pyStrip response).splitOn '\n').takeWhile
          (fun l => !("SQL:".toList.isPrefixOf l))).filter
        (fun l => "REFINED:".toList.isPrefixOf l)).foldl
        (fun _ l => pyStrip (l.drop 8)) question := by
  unfold generate_sql_parse
  exact gen_sql_loop_refined_eq ((pyStrip response).splitOn '\n') question

/-- C8 counterexample: the empty string is a possible first question (the
request model does not forbid it), is falsy in Python, and yields the
persisted title `"New Chat"` — not its trimmed self as the claim states. -/
theorem persisted_title_empty_counterexample :
    persisted_title "".toList = "New Chat".toList ∧
    pyStrip "".toList = ([] : List Char) ∧
    "New Chat".toList ≠ ([] : List Char) := by decide

/-- C8 amended: for every non-empty first question, the persisted session
title is the trimmed question when its trimmed length is ≤ 50, and the first
47 characters of the trimmed question followed by `...` when the trimmed
length exceeds 50; the empty first question instead yields `"New Chat"`. -/
theorem persisted_title_rule (q : List Char) (hq : q ≠ []) :
    persisted_title q =
      (if (pyStrip q).length ≤ 50 then pyStrip q
       else (pyStrip q).take 47 ++ "...".toList) := by
  have hne : q.isEmpty = false := by
    cases q with
    | nil => exact absurd rfl hq
    | cons c t => rfl
  unfold persisted_title generate_title
  rw [if_pos (by simp [hne]), if_neg (by simp [hne])]
  by_cases h50 : (pyStrip q).length ≤ 50
  · rw [if_neg (by omega), if_pos h50]
  · rw [if_pos (by omega), if_neg h50]

/-- Witness for `persisted_title_rule` at a short and concrete question. -/
theorem persisted_title_rule_witness :
    ("hello".toList ≠ ([] : List Char)) ∧
    persisted_title "hello".toList =
      (if (pyStrip "hello".toList).length ≤ 50 then pyStrip "hello".toList
       else (pyStrip "hello".toList).take 47 ++ "...".toList) :=
  ⟨by decide, persisted_title_rule "hello".toList (by decide)⟩

/-- A query passing validation always reaches the backend. -/
theorem exec_flag_of_valid (backend : List Char → Except String (List Row))
    (sql : List Char) (h : validateQuery sql = none) :
    (execute_query_instr backend sql).2 = true := by
  unfold execute_query_instr
  rw [h]
  cases backend sql <;> rfl

/-- C9: every SQL text produced by `SimplePipeline._pattern_to_sql` starts
(after trimming, case-insensitively) with `SELECT`, contains none of the
forbidden keywords as a case-insensitive substring, passes `execute_query`
validation, and therefore always reaches the backend — the validation-error
branch is unreachable for queries the simple pipeline produces. -/
theorem pattern_sql_never_rejected (q : List Char)
    (backend : List Char → Except String (List Row)) :
    ("SELECT".toList <+: pyUpper (pyStrip ((pattern_to_sql q).2).toList)) ∧
    (∀ kw ∈ dangerous_keywords,
      hasSubstr kw.toList
        (pyUpper (pyStrip ((pattern_to_sql q).2).toList)) = false) ∧
    validateQuery ((pattern_to_sql q).2).toList = none ∧
    (execute_query_instr backend ((pattern_to_sql q).2).toList).2 = true := by
  have hv : validateQuery ((pattern_to_sql q).2).toList = none := by
    unfold pattern_to_sql
    dsimp only
    split_ifs <;> decide
  refine ⟨?_, ?_, hv, exec_flag_of_valid backend _ hv⟩
  · unfold pattern_to_sql
    dsimp only
    split_ifs <;> decide
  · unfold pattern_to_sql
    dsimp only
    split_ifs <;> decide

theorem groupInsert_fst (gs : List (String × List RetrievedItem)) (i : RetrievedItem) :
    (groupInsert gs i).map Prod.fst =
      (if i.collection ∈ gs.map Prod.fst then gs.map Prod.fst
       else gs.map Prod.fst ++ [i.collection]) := by
  induction gs with
  | nil => simp [groupInsert]
  | cons g rest ih =>
    obtain ⟨k, its⟩ := g
    by_cases hk : k = i.collection
    · subst hk
      simp [groupInsert]
    · have hne : ¬ (i.collection = k) := fun h => hk h.symm
      simp only [groupInsert, if_neg hk, List.map_cons, List.mem_cons]
      rw [ih]
      by_cases hmem : i.collection ∈ rest.map Prod.fst
      · simp [hmem, hne]
      · simp [hmem, hne]

theorem groupBy_fst_aux (l : List RetrievedItem) :
    ∀ gs, (l.foldl groupInsert gs).map Prod.fst =
      l.foldl (fun acc i => if i.collection ∈ acc then acc else acc ++ [i.collection])
        (gs.map Prod.fst) := by
  induction l with
  | nil => intro gs; rfl
  | cons i rest ih =>
    intro gs
    simp only [List.foldl_cons]
    rw [ih, groupInsert_fst]

theorem groupBy_headers (l : List RetrievedItem) :
    (groupByCollection l).map Prod.fst = header_order l := by
  have := groupBy_fst_aux l []
  simpa [groupByCollection, header_order] using this

theorem lookup_groupInsert (c : String) (i : RetrievedItem) :
    ∀ gs, lookup_group c (groupInsert gs i) =
      (if i.collection = c then lookup_group c gs ++ [i] else lookup_group c gs) := by
  intro gs
  induction gs with
  | nil =>
    by_cases hc : i.collection = c <;> simp [groupInsert, lookup_group, hc]
  | cons g rest ih =>
    obtain ⟨k, its⟩ := g
    by_cases hk : k = i.collection <;> by_cases hc : k = c
    · subst hk; subst hc
      simp [groupInsert, lookup_group]
    · subst hk
      simp [groupInsert, lookup_group, hc]
    · subst hc
      have hki : ¬ (i.collection = k) := fun h => hk h.symm
      simp [groupInsert, lookup_group, hk, hki]
    · simp [groupInsert, lookup_group, hk, hc, ih]

theorem lookup_groupBy_aux (l : List RetrievedItem) (c : String) :
    ∀ gs, lookup_group c (l.foldl groupInsert gs) =
      lookup_group c gs ++ l.filter (fun i => i.collection == c) := by
  induction l with
  | nil => intro gs; simp
  | cons i rest ih =>
    intro gs
    simp only [List.foldl_cons]
    rw [ih, lookup_groupInsert]
    by_cases hc : i.collection = c
    · simp [hc, List.filter_cons]
    · simp [hc, List.filter_cons]

theorem groupBy_groups (l : List RetrievedItem) (c : String) :
    lookup_group c (groupByCollection l) = l.filter (fun i => i.collection == c) := by
  have := lookup_groupBy_aux l c []
  simpa [groupByCollection, lookup_group] using this

/-- C6 counterexample: with a `metrics` item ranked above a
`data_dictionary` item, `get_all_context` renders the METRIC DEFINITIONS
group first — the groups follow the distance ranking's first-appearance
order, not the fixed display order (dictionary, metrics, rules,
documentation) the claim states. -/
theorem get_all_context_order_counterexample :
    (groupByCollection (vs_search c6Env "q" 5)).map Prod.fst =
      ["metrics", "data_dictionary"] ∧
    allCollections.filter
      (fun c => (vs_search c6Env "q" 5).any (fun i => i.collection == c)) =
      ["data_dictionary", "metrics"] ∧
    (["metrics", "data_dictionary"] : List String) ≠
      ["data_dictionary", "metrics"] ∧
    get_all_context c6Env "q" 5 =
      "\n=== METRIC DEFINITIONS ===\n\nm\n\n=== DATA DICTIONARY (Tables & Columns) ===\n\ndd" := by
  decide

/-- C6 amended: when the search yields nothing, `get_all_context` returns
the explicit (non-empty) no-context sentinel; otherwise the retained items
are grouped by category in order of each category's first appearance in the
distance-ranked list, each group holding exactly that category's retained
items in ranking order. -/
theorem get_all_context_rule (env : SearchEnv) (query : String) (top_k : Nat) :
    (vs_search env query top_k = [] →
      get_all_context env query top_k = "No relevant context found.") ∧
    ("No relevant context found." ≠ "") ∧
    (groupByCollection (vs_search env query top_k)).map Prod.fst =
      header_order (vs_search env query top_k) ∧
    (∀ c, lookup_group c (groupByCollection (vs_search env query top_k)) =
      (vs_search env query top_k).filter (fun i => i.collection == c)) := by
  refine ⟨?_, by decide, groupBy_headers _, fun c => groupBy_groups _ c⟩
  intro h
  unfold get_all_context
  rw [h]
  rfl

/-- Witness for `get_all_context_rule` on a search capability that returns
nothing. -/
theorem get_all_context_rule_witness :
    get_all_context (fun _ _ => []) "q" 5 = "No relevant context found." :=
  (get_all_context_rule (fun _ _ => []) "q" 5).1 (by decide)

/-- C5 counterexample: in the SQL-execution-failure branch the user message
is mirrored but the assistant error answer is appended only to the in-memory
store — no `save_message` call is made for it, so the claimed
"mirrored in every branch" property fails. -/
theorem process_query_sql_error_not_mirrored :
    branchOf c5Env c5Q = Branch.sqlError ∧
    UserMirrored c5Q (process_query c5Env [] "c1" c5Q).events ∧
    ¬ AssistantMirrored (process_query c5Env [] "c1" c5Q).events := by decide

/-- C5 amended: in every run the user message is appended in memory and
mirrored durably, and an assistant exit message is appended in memory in
every branch; the assistant message is also mirrored durably exactly in the
branches other than the SQL-execution-failure branch — equivalently, no
`save_message` write with role `assistant` occurs exactly when the run takes
the SQL-execution-failure branch, where the error answer therefore stays
in-memory only. -/
theorem process_query_persistence (env : PipelineEnv)
    (prior : List (String × String)) (cid : String) (q : String) :
    UserMirrored q (process_query env prior cid q).events ∧
    assistant_mem_msgs (process_query env prior cid q).events ≠ [] ∧
    (AssistantMirrored (process_query env prior cid q).events ↔
      branchOf env q ≠ Branch.sqlError) ∧
    (assistant_saved_msgs (process_query env prior cid q).events = [] ↔
      branchOf env q = Branch.sqlError) := by
  unfold process_query branchOf
  by_cases hm : is_multi_question q.toList = true
  · rw [if_pos hm, if_pos hm]
    refine ⟨⟨?_, ?_⟩, ?_, ?_, ?_⟩
    · simp [UserMirrored]
    · simp [UserMirrored]
    · simp [assistant_mem_msgs]
    · simp [AssistantMirrored, assistant_mem_msgs, saved_as_assistant]
    · simp [assistant_saved_msgs]
  · rw [if_neg hm, if_neg hm]
    by_cases hc : is_conversational_query q.toList = true
    · rw [if_pos hc, if_pos hc]
      refine ⟨⟨?_, ?_⟩, ?_, ?_, ?_⟩
      · simp [UserMirrored]
      · simp [UserMirrored]
      · simp [assistant_mem_msgs]
      · simp [AssistantMirrored, assistant_mem_msgs, saved_as_assistant]
      · simp [assistant_saved_msgs]
    · rw [if_neg hc, if_neg hc]
      dsimp only
      cases hdb : db_execute env (gen_sql env q (get_all_context env.search q 5)).2 with
      | error e =>
        refine ⟨⟨?_, ?_⟩, ?_, ?_, ?_⟩
        · simp [UserMirrored]
        · simp [UserMirrored]
        · simp [assistant_mem_msgs]
        · simp [AssistantMirrored, assistant_mem_msgs, saved_as_assistant]
        · simp [assistant_saved_msgs]
      | ok rows =>
        refine ⟨⟨?_, ?_⟩, ?_, ?_, ?_⟩
        · simp [UserMirrored]
        · simp [UserMirrored]
        · simp [assistant_mem_msgs]
        · simp [AssistantMirrored, assistant_mem_msgs, saved_as_assistant]
        · simp [assistant_saved_msgs]
